import Mathlib

/-!
# A shallow embedding of the GBR game-boy emulator core

Each Lean definition below translates one Rust item of the repository
(`src/core/*.rs`).  Machine integers (`u8`, `u16`) are modelled as `Nat`
with explicit `% 256` / `% 65536` at the points where the Rust code wraps,
and bitflag operations (`insert`, `remove`, `contains`,
`from_bits_truncate`) become `|||`, `&&& complement-mask`, `&&& mask = mask`
and `&&& defined-bits-mask` with the concrete masks of the corresponding
`bitflags!` declarations.  Byte stores (`Vec<u8>`, fixed arrays) are
modelled as total functions `Nat → Nat`.  Fallible code returns
`Option`: the cartridge's `panic!` arms are reachable through the `Bus`
dispatch (a read of `0xA000..=0xBFFF` on a ROM-only cartridge panics),
so `Cartridge.read8` / `Cartridge.write8` return `none` there and the
bus, the OAM-DMA copy loop and the CPU step propagate that `none`.
`panic!` arms of the other leaves (`Interrupt`, `Timer`, `Ppu`, `Apu`,
`Oam`) are unreachable from the `Bus` dispatch ranges and are modelled
as identity (writes) or `0` (reads), marked in comments.
-/

namespace GBR

/-- Pointwise update of a byte store, the model of `buf[i] = v`. -/
def upd (f : Nat → Nat) (i v : Nat) : Nat → Nat :=
  fun j => if j = i then v else f j

/-- Model of `u8::wrapping_add`. -/
def wadd8 (a b : Nat) : Nat := (a + b) % 256

/-- Model of `u8::wrapping_sub` (for byte-sized operands). -/
def wsub8 (a b : Nat) : Nat := (a + 256 - b % 256) % 256

/-- Model of `i8` reinterpretation of a byte (`as i8 as i16`). -/
def toI8 (b : Nat) : Int :=
  if b % 256 < 128 then (b % 256 : Int) else (b % 256 : Int) - 256

/-- Model of `i16` reinterpretation of a 16-bit word (`as i16`). -/
def toI16 (w : Nat) : Int :=
  if w % 65536 < 32768 then (w % 65536 : Int) else (w % 65536 : Int) - 65536

/-! ## Interrupt controller (`src/core/interrupt.rs`)

The `If` and `Ie` bitflags define **all eight** bits
(`_BIT7`/`_BIT6`/`_BIT5` plus the five IRQ bits), so
`from_bits_truncate` keeps the whole byte.  `irqf`/`irqe` are the raw
flag bytes. -/

inductive InterruptKind
  | vblank
  | lcdcStatus
  | timer
  | serial
  | joypad
deriving DecidableEq, Repr

structure Interrupt where
  ime  : Bool
  irqf : Nat
  irqe : Nat
deriving Repr

/-- Model of `Interrupt::new`. -/
def Interrupt.init : Interrupt := { ime := false, irqf := 0, irqe := 0 }

def Interrupt.enable (i : Interrupt) : Interrupt := { i with ime := true }

def Interrupt.disable (i : Interrupt) : Interrupt := { i with ime := false }

def Interrupt.has_irq (i : Interrupt) : Bool := i.irqf != 0

def Interrupt.is_enabled_irq (i : Interrupt) : Bool := i.ime

/-- Model of `Interrupt::interrupt_kind`: priority scan VBlank → LCDC → Timer →
Serial → Joypad over the common bits of `irqe` and `irqf`. -/
def Interrupt.interrupt_kind (i : Interrupt) : Option InterruptKind :=
  if !i.ime then none
  else if i.irqe &&& 0x01 = 0x01 ∧ i.irqf &&& 0x01 = 0x01 then some .vblank
  else if i.irqe &&& 0x02 = 0x02 ∧ i.irqf &&& 0x02 = 0x02 then some .lcdcStatus
  else if i.irqe &&& 0x04 = 0x04 ∧ i.irqf &&& 0x04 = 0x04 then some .timer
  else if i.irqe &&& 0x08 = 0x08 ∧ i.irqf &&& 0x08 = 0x08 then some .serial
  else if i.irqe &&& 0x10 = 0x10 ∧ i.irqf &&& 0x10 = 0x10 then some .joypad
  else none

/-- Model of `Interrupt::isr_addr`: vector of the pending IRQ selected above. -/
def Interrupt.isr_addr (i : Interrupt) : Option Nat :=
  match i.interrupt_kind with
  | none => none
  | some .vblank => some 0x0040
  | some .lcdcStatus => some 0x0048
  | some .timer => some 0x0050
  | some .serial => some 0x0058
  | some .joypad => some 0x0060

def InterruptKind.mask : InterruptKind → Nat
  | .vblank => 0x01
  | .lcdcStatus => 0x02
  | .timer => 0x04
  | .serial => 0x08
  | .joypad => 0x10

/-- Model of `Interrupt::set_irq` (`irqf.insert`). -/
def Interrupt.set_irq (i : Interrupt) (k : InterruptKind) : Interrupt :=
  { i with irqf := i.irqf ||| k.mask }

/-- Model of `Interrupt::remove_irq` (`irqf.remove`). -/
def Interrupt.remove_irq (i : Interrupt) (k : InterruptKind) : Interrupt :=
  { i with irqf := i.irqf &&& (0xFF ^^^ k.mask) }

/-- Model of `impl Io for Interrupt`, read side.  The `panic!` arm is unreachable
from `Bus` and modelled as `0`. -/
def Interrupt.read8 (i : Interrupt) (addr : Nat) : Nat :=
  if addr = 0xFF0F then i.irqf
  else if addr = 0xFFFF then i.irqe
  else 0

/-- Model of `impl Io for Interrupt`, write side.  `If`/`Ie` define all 8 bits, so
`from_bits_truncate data` is `data &&& 0xFF`. -/
def Interrupt.write8 (i : Interrupt) (addr data : Nat) : Interrupt :=
  if addr = 0xFF0F then { i with irqf := data &&& 0xFF }
  else if addr = 0xFFFF then { i with irqe := data &&& 0xFF }
  else i

/-! ## Timer (`src/core/timer.rs`)

The `Tac` bitflags define bits 0–2 (mask `0x07`).  The constants below
keep the source names: `TAC01_DIV = 16` and `TAC10_DIV = 64`, and the
`match` in `Timer::tick` pairs pattern `0b10` with `TAC01_DIV` and
pattern `0b01` with `TAC10_DIV`, exactly as the source does. -/

def TAC00_DIV : Nat := 1024
def TAC01_DIV : Nat := 16
def TAC10_DIV : Nat := 64
def TAC11_DIV : Nat := 256
def DIV_PERIOD : Nat := 256

structure Timer where
  div   : Nat
  tima  : Nat
  tma   : Nat
  tac   : Nat
  count : Nat
deriving Repr

/-- Model of `Timer::new`. -/
def Timer.init : Timer := { div := 0, tima := 0, tma := 0, tac := 0, count := 0 }

/-- The duplicated body of each `Timer::tick` arm:
`tima = tima.wrapping_add(1); if tima == 0 { tima = tma; overflow = true }`. -/
def Timer.bump (tima tma : Nat) : Nat × Bool :=
  let t := (tima + 1) % 256
  if t = 0 then (tma, true) else (t, false)

/-- Model of `Timer::tick`.  Mirrors the source arm order: pattern `0b00` uses
`TAC00_DIV`, pattern `0b10` uses `TAC01_DIV`, pattern `0b01` uses
`TAC10_DIV`, pattern `0b11` uses `TAC11_DIV`. -/
def Timer.tick (t : Timer) : Timer × Bool :=
  let count := (t.count + 1) % 65536
  let (tima, overflow) :=
    if t.tac &&& 0x04 = 0x04 then
      match t.tac &&& 0b11 with
      | 0b00 => if count % TAC00_DIV = 0 then Timer.bump t.tima t.tma else (t.tima, false)
      | 0b10 => if count % TAC01_DIV = 0 then Timer.bump t.tima t.tma else (t.tima, false)
      | 0b01 => if count % TAC10_DIV = 0 then Timer.bump t.tima t.tma else (t.tima, false)
      | _    => if count % TAC11_DIV = 0 then Timer.bump t.tima t.tma else (t.tima, false)
    else (t.tima, false)
  let div := if count % DIV_PERIOD = 0 then (t.div + 1) % 256 else t.div
  ({ t with count := count, tima := tima, div := div }, overflow)

/-- Model of `impl Io for Timer`, read side (unreachable `panic!` arm is `0`). -/
def Timer.read8 (t : Timer) (addr : Nat) : Nat :=
  if addr = 0xFF04 then t.div
  else if addr = 0xFF05 then t.tima
  else if addr = 0xFF06 then t.tma
  else if addr = 0xFF07 then t.tac
  else 0

/-- Model of `impl Io for Timer`, write side; `Tac::from_bits_truncate` masks to
the three defined bits. -/
def Timer.write8 (t : Timer) (addr data : Nat) : Timer :=
  if addr = 0xFF04 then { t with div := 0 }
  else if addr = 0xFF05 then { t with tima := data }
  else if addr = 0xFF06 then { t with tma := data }
  else if addr = 0xFF07 then { t with tac := data &&& 0x07 }
  else t

/-! ## Palette (`src/core/ppu.rs`, `Color` / `Palette`)

`Color` is a 2-bit shade; `Color::from` / `Color::to_u8` are mutually
inverse on `0..=3`, so each `dot` field is modelled as its 2-bit value. -/

structure Palette where
  dot11 : Nat
  dot10 : Nat
  dot01 : Nat
  dot00 : Nat
deriving Repr

/-- Model of `Palette::from(u8)`. -/
def Palette.fromU8 (b : Nat) : Palette :=
  { dot11 := (b >>> 6) &&& 0x03
    dot10 := (b >>> 4) &&& 0x03
    dot01 := (b >>> 2) &&& 0x03
    dot00 := b &&& 0x03 }

/-- Model of `Palette::to_u8`. -/
def Palette.toU8 (p : Palette) : Nat :=
  (p.dot11 <<< 6) ||| (p.dot10 <<< 4) ||| (p.dot01 <<< 2) ||| p.dot00

/-! ## Pad (`src/core/pad.rs`); `P1` defines bits 0–5 (mask `0x3F`). -/

structure Pad where
  register : Nat
  state    : Nat
deriving Repr

/-- Model of `Pad::new`: `P13|P12|P11|P10` and all eight key bits set. -/
def Pad.init : Pad := { register := 0x0F, state := 0xFF }

/-- Model of `Pad::read8`. -/
def Pad.read8 (p : Pad) : Nat :=
  if ¬ (p.register &&& 0x20 = 0x20) then
    (p.register &&& 0xF0) ||| ((p.state >>> 4) &&& 0x0F)
  else if ¬ (p.register &&& 0x10 = 0x10) then
    (p.register &&& 0xF0) ||| (p.state &&& 0x0F)
  else
    p.register &&& 0x0F

/-- Model of `Pad::write8` (`P1::from_bits_truncate`). -/
def Pad.write8 (p : Pad) (data : Nat) : Pad :=
  { p with register := data &&& 0x3F }

/-! ## Apu (`src/core/apu.rs`)

Only the register bytes and the wave-pattern RAM are modelled.  The
writes additionally drive the host-audio channels (`cpal` streams,
`f32` math behind a mutex); that side channel is never read back by the
core (`Bus::read8` has no APU arm), so it is outside the modelled
surface. -/

structure Apu where
  nr10 : Nat
  nr11 : Nat
  nr12 : Nat
  nr13 : Nat
  nr14 : Nat
  nr21 : Nat
  nr22 : Nat
  nr23 : Nat
  nr24 : Nat
  nr30 : Nat
  nr31 : Nat
  nr32 : Nat
  nr33 : Nat
  nr34 : Nat
  wavepattern_ram : Nat → Nat
  nr41 : Nat
  nr42 : Nat
  nr43 : Nat
  nr44 : Nat
  nr50 : Nat
  nr51 : Nat
  nr52 : Nat

/-- Model of `Apu::new` (register reset values). -/
def Apu.init : Apu :=
  { nr10 := 0x80, nr11 := 0xBF, nr12 := 0xF3, nr13 := 0x00, nr14 := 0xBF
    nr21 := 0x3F, nr22 := 0x00, nr23 := 0x00, nr24 := 0xBF
    nr30 := 0x7F, nr31 := 0xFF, nr32 := 0x9F, nr33 := 0xBF, nr34 := 0x00
    wavepattern_ram := fun _ => 0
    nr41 := 0xFF, nr42 := 0x00, nr43 := 0x00, nr44 := 0x00
    nr50 := 0x77, nr51 := 0xF3, nr52 := 0xF1 }

/-- Model of `impl Io for Apu`, write side, restricted to the register bytes
(the channel side effects are host audio, see above).  The `panic!`
arm is unreachable from `Bus::write8` and modelled as identity. -/
def Apu.write8 (a : Apu) (addr data : Nat) : Apu :=
  if addr = 0xFF10 then { a with nr10 := data }
  else if addr = 0xFF11 then { a with nr11 := data }
  else if addr = 0xFF12 then { a with nr12 := data }
  else if addr = 0xFF13 then { a with nr13 := data }
  else if addr = 0xFF14 then { a with nr14 := data }
  else if addr = 0xFF16 then { a with nr21 := data }
  else if addr = 0xFF17 then { a with nr22 := data }
  else if addr = 0xFF18 then { a with nr23 := data }
  else if addr = 0xFF19 then { a with nr24 := data }
  else if addr = 0xFF1A then { a with nr30 := data }
  else if addr = 0xFF1B then { a with nr31 := data }
  else if addr = 0xFF1C then { a with nr32 := data }
  else if addr = 0xFF1D then { a with nr33 := data }
  else if addr = 0xFF1E then { a with nr34 := data }
  else if 0xFF30 ≤ addr ∧ addr ≤ 0xFF3F then
    { a with wavepattern_ram := upd a.wavepattern_ram (addr - 0xFF30) data }
  else if addr = 0xFF20 then { a with nr41 := data }
  else if addr = 0xFF21 then { a with nr42 := data }
  else if addr = 0xFF22 then { a with nr43 := data }
  else if addr = 0xFF23 then { a with nr44 := data }
  else if addr = 0xFF24 then { a with nr50 := data }
  else if addr = 0xFF25 then { a with nr51 := data }
  else if addr = 0xFF26 then { a with nr52 := data }
  else a

/-! ## Cartridge (`src/core/cartridge.rs`)

The ROM / RAM images are byte stores; the `title` string is metadata and
is not part of the model. -/

inductive BankMode
  | ramBank
  | romBank
deriving DecidableEq, Repr

inductive Cartridge
  | noMbc (rom : Nat → Nat)
  | mbc1 (rom : Nat → Nat) (rombank : Nat) (ram : Nat → Nat) (rambank : Nat)
      (ram_enabled : Bool) (mode : BankMode)

/-- Model of `impl Io for Cartridge`, read side.  `none` models a
`panic!`: the `NoMbc` catch-all arm (which the `Bus` reaches for any
address in `0xA000..=0xBFFF`), the `Mbc1` catch-all arm, and the
`rombank as usize - 1` underflow of the switchable-bank read when
`rombank = 0`. -/
def Cartridge.read8 (c : Cartridge) (addr : Nat) : Option Nat :=
  match c with
  | .noMbc rom =>
    if addr ≤ 0x7FFF then some (rom addr) else none
  | .mbc1 rom rombank ram rambank _ _ =>
    if addr ≤ 0x3FFF then some (rom addr)
    else if addr ≤ 0x7FFF then
      if rombank = 0 then none
      else some (rom (addr + 0x4000 * (rombank - 1)))
    else if 0xA000 ≤ addr ∧ addr ≤ 0xBFFF then
      some (ram (addr - 0xA000 + 0x2000 * rambank))
    else none

/-- Model of `impl Io for Cartridge`, write side.  For `NoMbc` a ROM-space write
stores the byte straight into the ROM image (`rom[addr] = data`);
`none` models the `panic!` catch-all arms (the `NoMbc` one is reachable
from the `Bus` at `0xA000..=0xBFFF`). -/
def Cartridge.write8 (c : Cartridge) (addr data : Nat) : Option Cartridge :=
  match c with
  | .noMbc rom =>
    if addr ≤ 0x7FFF then some (.noMbc (upd rom addr data)) else none
  | .mbc1 rom rombank ram rambank ram_enabled mode =>
    if addr ≤ 0x1FFF then some (.mbc1 rom rombank ram rambank (data &&& 0x0F = 0x0A) mode)
    else if addr ≤ 0x3FFF then some (.mbc1 rom (data &&& 0x1F) ram rambank ram_enabled mode)
    else if addr ≤ 0x5FFF then
      match mode with
      | .ramBank => some (.mbc1 rom rombank ram (data &&& 0x03) ram_enabled mode)
      | .romBank => some (.mbc1 rom (rombank ||| ((data &&& 0x03) <<< 5)) ram rambank ram_enabled mode)
    else if addr ≤ 0x7FFF then
      some (.mbc1 rom rombank ram rambank ram_enabled
        (if data &&& 0x01 = 0x00 then .romBank else .ramBank))
    else if 0xA000 ≤ addr ∧ addr ≤ 0xBFFF then
      if ram_enabled then
        match mode with
        | .ramBank => some (.mbc1 rom rombank (upd ram (addr - 0xA000 + 0x2000 * rambank) data) rambank ram_enabled mode)
        | .romBank => some (.mbc1 rom rombank (upd ram (addr - 0xA000) data) rambank ram_enabled mode)
      else some c
    else none

/-! ## Pixel pipeline (`src/core/ppu.rs`)

`Lcdc` defines all 8 bits (truncation mask `0xFF`); `Stat` defines bits
0–6 (mask `0x7F`).  The 40×4-byte OAM table is flattened to a byte store
`oam : Nat → Nat`: entry `i` occupies bytes `4*i .. 4*i+3` in the order
`(y, x, tile, flags)` of the `Oam` struct, and `OamFlags` defines all
8 bits so its `from_bits_truncate` is the identity on bytes.  `pixels`
is the row-major 160×144 shade buffer. -/

structure Ppu where
  clock  : Nat
  pixels : Nat → Nat
  lcdc   : Nat
  stat   : Nat
  scy    : Nat
  scx    : Nat
  ly     : Nat
  lyc    : Nat
  dma    : Nat
  bgp    : Palette
  obp0   : Palette
  obp1   : Palette
  wy     : Nat
  wx     : Nat
  vram   : Nat → Nat
  oam    : Nat → Nat
  oam_dma_started : Bool

/-- Model of `Ppu::new`. -/
def Ppu.init : Ppu :=
  { clock := 0, pixels := fun _ => 0, lcdc := 0x91, stat := 0
    scy := 0, scx := 0, ly := 0, lyc := 0, dma := 0
    bgp := Palette.fromU8 0xFC, obp0 := Palette.fromU8 0xFF, obp1 := Palette.fromU8 0xFF
    wy := 0, wx := 0, vram := fun _ => 0, oam := fun _ => 0
    oam_dma_started := false }

/-- Byte index into the flattened OAM for an absolute address in
`0xFE00..=0xFE9F`: the source's `(addr&0xFF)/4` entry and `addr%4`
field. -/
def oamIndex (addr : Nat) : Nat := ((addr &&& 0xFF) / 4) * 4 + addr % 4

/-- Model of `impl Io for Ppu`, read side (`panic!` arm unreachable from `Bus`,
modelled as `0`). -/
def Ppu.read8 (p : Ppu) (addr : Nat) : Nat :=
  if 0x8000 ≤ addr ∧ addr ≤ 0x9FFF then p.vram (addr &&& 0x1FFF)
  else if 0xFE00 ≤ addr ∧ addr ≤ 0xFE9F then p.oam (oamIndex addr)
  else if addr = 0xFF40 then p.lcdc
  else if addr = 0xFF41 then p.stat
  else if addr = 0xFF42 then p.scy
  else if addr = 0xFF43 then p.scx
  else if addr = 0xFF44 then p.ly
  else if addr = 0xFF45 then p.lyc
  else if addr = 0xFF46 then p.dma
  else if addr = 0xFF47 then p.bgp.toU8
  else if addr = 0xFF48 then p.obp0.toU8
  else if addr = 0xFF49 then p.obp1.toU8
  else if addr = 0xFF4A then p.wy
  else if addr = 0xFF4B then p.wx
  else 0

/-- Model of `impl Io for Ppu`, write side. -/
def Ppu.write8 (p : Ppu) (addr data : Nat) : Ppu :=
  if 0x8000 ≤ addr ∧ addr ≤ 0x9FFF then { p with vram := upd p.vram (addr &&& 0x1FFF) data }
  else if 0xFE00 ≤ addr ∧ addr ≤ 0xFE9F then { p with oam := upd p.oam (oamIndex addr) data }
  else if addr = 0xFF40 then { p with lcdc := data &&& 0xFF }
  else if addr = 0xFF41 then { p with stat := data &&& 0x7F }
  else if addr = 0xFF42 then { p with scy := data }
  else if addr = 0xFF43 then { p with scx := data }
  else if addr = 0xFF44 then { p with ly := data }
  else if addr = 0xFF45 then { p with lyc := data }
  else if addr = 0xFF46 then { p with dma := data, oam_dma_started := true }
  else if addr = 0xFF47 then { p with bgp := Palette.fromU8 data }
  else if addr = 0xFF48 then { p with obp0 := Palette.fromU8 data }
  else if addr = 0xFF49 then { p with obp1 := Palette.fromU8 data }
  else if addr = 0xFF4A then { p with wy := data }
  else if addr = 0xFF4B then { p with wx := data }
  else p

def Ppu.dma_started (p : Ppu) : Bool := p.oam_dma_started

def Ppu.stop_dma (p : Ppu) : Ppu := { p with oam_dma_started := false }

def Ppu.bg_tilemap_offset (p : Ppu) : Nat :=
  if p.lcdc &&& 0x08 == 0x08 then 0x9C00 else 0x9800

def Ppu.window_tilemap_offset (p : Ppu) : Nat :=
  if p.lcdc &&& 0x40 == 0x40 then 0x9C00 else 0x9800

def Ppu.tiledata_offset (p : Ppu) : Nat :=
  if p.lcdc &&& 0x10 == 0x10 then 0x8000 else 0x8800

inductive PpuMode
  | vblank
  | hblank
  | searchingOAM
  | transferPixels

/-- Model of `Ppu::switch_mode`: writes the mode into `STAT` bits 1, 0. -/
def Ppu.switch_mode (p : Ppu) (mode : PpuMode) : Ppu :=
  match mode with
  | .hblank => { p with stat := (p.stat &&& 0xFD) &&& 0xFE }
  | .vblank => { p with stat := (p.stat &&& 0xFD) ||| 0x01 }
  | .searchingOAM => { p with stat := (p.stat ||| 0x02) &&& 0xFE }
  | .transferPixels => { p with stat := (p.stat ||| 0x02) ||| 0x01 }

/-- Model of `Ppu::update_mode`: mode from `ly` and the line clock; returns the
LCDC-status request raised on entering HBlank with `INTR_M0` set. -/
def Ppu.update_mode (p : Ppu) : Ppu × Bool :=
  if 144 < p.ly then (p.switch_mode .vblank, false)
  else if p.clock ≤ 80 then (p.switch_mode .searchingOAM, false)
  else if 167 ≤ p.clock ∧ p.clock ≤ 291 then (p.switch_mode .transferPixels, false)
  else (p.switch_mode .hblank, p.stat &&& 0x08 == 0x08)

def Ppu.sprite_size (p : Ppu) : Nat :=
  if p.lcdc &&& 0x04 == 0x04 then 16 else 8

def Ppu.sprite_on (p : Ppu) : Bool := p.lcdc &&& 0x02 == 0x02

def Ppu.window_on (p : Ppu) : Bool := p.lcdc &&& 0x20 == 0x20

def Ppu.get_bg_palette (p : Ppu) (c : Nat) : Nat :=
  match c with
  | 0 => p.bgp.dot00
  | 1 => p.bgp.dot01
  | 2 => p.bgp.dot10
  | 3 => p.bgp.dot11
  | _ => 0

/-- Model of `Ppu::get_sprite_palette`, selected by the entry's `PALETTE_NO`
flag (bit 4 of the flags byte). -/
def Ppu.get_sprite_palette (p : Ppu) (flags c : Nat) : Nat :=
  if flags &&& 0x10 == 0x10 then
    match c with
    | 0 => p.obp1.dot00
    | 1 => p.obp1.dot01
    | 2 => p.obp1.dot10
    | 3 => p.obp1.dot11
    | _ => 0
  else
    match c with
    | 0 => p.obp0.dot00
    | 1 => p.obp0.dot01
    | 2 => p.obp0.dot10
    | 3 => p.obp0.dot11
    | _ => 0

def Ppu.get_bg_tileid (p : Ppu) (index : Nat) : Nat :=
  p.read8 (index + p.bg_tilemap_offset)

def Ppu.get_window_tileid (p : Ppu) (index : Nat) : Nat :=
  p.read8 (index + p.window_tilemap_offset)

def Ppu.get_tile_addr (p : Ppu) (tileid : Nat) : Nat :=
  let offset := p.tiledata_offset
  if offset = 0x8800 then offset + (wadd8 tileid 0x80) * 0x10
  else offset + tileid * 0x10

/-- Model of `Ppu::get_bg_color`: decode the 8×8 tile into its 64 2-bit values
(row-major, msb from the odd plane byte) and pick entry `x + y*8`. -/
def Ppu.get_bg_color (p : Ppu) (tileid x y : Nat) : Nat :=
  let addr := p.get_tile_addr tileid
  let pix := ((List.range 8).map (fun i =>
    let line1 := p.read8 (addr + i * 2)
    let line2 := p.read8 (addr + i * 2 + 1)
    (List.range 8).map (fun j =>
      (((line2 >>> (7 - j)) &&& 0x01) <<< 1) + ((line1 >>> (7 - j)) &&& 0x01)))).flatten
  pix.getD (x + y * 8) 0

/-- Model of `Ppu::get_sprite_color`: like `get_bg_color` but always from the
`0x8000` tile-data base and with `height` rows. -/
def Ppu.get_sprite_color (p : Ppu) (tileid x y height : Nat) : Nat :=
  let addr := tileid * 0x10 + 0x8000
  let pix := ((List.range height).map (fun i =>
    let line1 := p.read8 (addr + i * 2)
    let line2 := p.read8 (addr + i * 2 + 1)
    (List.range 8).map (fun j =>
      (((line2 >>> (7 - j)) &&& 0x01) <<< 1) + ((line1 >>> (7 - j)) &&& 0x01)))).flatten
  pix.getD (x + y * 8) 0

/-- One iteration of the `Ppu::build_bg` column loop. -/
def Ppu.bgStep (p : Ppu) (x : Nat) : Ppu :=
  let y := wadd8 p.ly p.scy / 8 * 32
  let index := wadd8 x p.scx / 8 % 32 + y
  let tileid := p.get_bg_tileid index
  let color := p.get_bg_color tileid (wadd8 x p.scx % 8) (wadd8 p.ly p.scy % 8)
  let base := (p.ly * 160 + x) % (144 * 160)
  { p with pixels := upd p.pixels base (p.get_bg_palette color) }

/-- Model of `Ppu::build_bg`. -/
def Ppu.build_bg (p : Ppu) : Ppu :=
  (List.range 160).foldl Ppu.bgStep p

/-- One iteration of the `Ppu::build_window` column loop (`continue`
when `x < posx`). -/
def Ppu.winStep (p : Ppu) (x : Nat) : Ppu :=
  let posx := wsub8 p.wx 7
  if x < posx then p
  else
    let y := wsub8 p.ly p.wy / 8 * 32
    let index := wsub8 x posx / 8 % 32 + y
    let tileid := p.get_window_tileid index
    let color := p.get_bg_color tileid (wsub8 x posx % 8) (wsub8 p.ly p.wy % 8)
    let base := p.ly * 160 + x
    { p with pixels := upd p.pixels base (p.get_bg_palette color) }

/-- Model of `Ppu::build_window`: early return when `wx ≥ 167 && wy ≥ 144`
(note the source conjunction) or `ly < wy`, otherwise the column loop. -/
def Ppu.build_window (p : Ppu) : Ppu :=
  if 167 ≤ p.wx ∧ 144 ≤ p.wy then p
  else if p.ly < p.wy then p
  else (List.range 160).foldl Ppu.winStep p

/-- Innermost body of `Ppu::build_sprite` for OAM entry `i`, sprite
column `x` and row `y` (`7 - y` is the source's `u8` subtraction,
truncated at 0 as `Nat` subtraction). -/
def Ppu.spriteStep (height i : Nat) (p : Ppu) (x y : Nat) : Ppu :=
  let attrX := p.oam (i * 4 + 1)
  let attrY := p.oam (i * 4)
  let flags := p.oam (i * 4 + 3)
  let posx := if flags &&& 0x20 == 0x20 then 7 - x else x
  let posy := if flags &&& 0x40 == 0x40 then 7 - y else y
  let offsetx := wsub8 attrX 8
  let offsety := wsub8 attrY 16
  if 160 ≤ wadd8 posx offsetx then p
  else if 144 ≤ wadd8 posy offsety then p
  else
    let color := p.get_sprite_color (p.oam (i * 4 + 2)) (x % 8) (y % height) height
    let base := (wadd8 posx offsetx + wadd8 posy offsety * 160) % (144 * 160)
    if color ≠ 0 then { p with pixels := upd p.pixels base (p.get_sprite_palette flags color) }
    else p

/-- Model of `Ppu::build_sprite`: all 40 OAM entries (skipping `x == 0`), the
8 columns and `height` rows of each. -/
def Ppu.build_sprite (p0 : Ppu) : Ppu :=
  let height := p0.sprite_size
  (List.range 40).foldl (fun p i =>
    if p.oam (i * 4 + 1) = 0 then p
    else
      (List.range 8).foldl (fun p x =>
        (List.range height).foldl (fun p y => Ppu.spriteStep height i p x y) p) p) p0

/-- The visible-line branch of `Ppu::tick`: `build_bg` then
`build_window` when the window enable bit is on. -/
def Ppu.renderVisibleLine (p : Ppu) : Ppu :=
  let p := p.build_bg
  if p.window_on then p.build_window else p

/-- Model of `Ppu::tick`: update the mode, advance the line clock by 4 and, at
the 456-clock line boundary, render / advance `ly`; returns the VBlank
and LCDC-status IRQ requests. -/
def Ppu.tick (p0 : Ppu) : Ppu × (Option InterruptKind × Option InterruptKind) :=
  let (p, lcdc0) := p0.update_mode
  let p := { p with clock := (p.clock + 4) % 65536 }
  if 456 ≤ p.clock then
    let (p, vblank_irq, lcdc_irq) :=
      if p.ly = 144 then
        let p := if p.sprite_on then p.build_sprite else p
        (p, true, lcdc0 || (p.stat &&& 0x10 == 0x10))
      else if 154 ≤ p.ly then
        (({ p with ly := 0 }).build_bg, false, lcdc0)
      else if p.ly < 144 then
        (p.renderVisibleLine, false, lcdc0)
      else (p, false, lcdc0)
    let (p, lcdc_irq) :=
      if p.ly = p.lyc then
        let p := { p with stat := p.stat ||| 0x04 }
        (p, lcdc_irq || (p.stat &&& 0x40 == 0x40))
      else (p.switch_mode .hblank, lcdc_irq)
    let p := { p with ly := (p.ly + 1) % 256 }
    let p := { p with clock := (p.clock + 65536 - 456) % 65536 }
    (p, (if vblank_irq then some .vblank else none,
         if lcdc_irq then some .lcdcStatus else none))
  else
    (p, (none, if lcdc0 then some .lcdcStatus else none))

/-! ## Bus (`src/core/bus.rs`)

The address dispatch follows the `match` arms of `impl Io for Bus` in
source order.  Mirrors fold with `addr & 0x1FFF` (work RAM and its
echo) and `addr & 0x7F` (high RAM). -/

structure Bus where
  cartridge : Cartridge
  ram       : Nat → Nat
  hram      : Nat → Nat
  ppu       : Ppu
  apu       : Apu
  interrupt : Interrupt
  pad       : Pad
  timer     : Timer

/-- Model of `Bus::_no_cartridge` (a zeroed 32 KiB ROM and freshly constructed
leaves). -/
def Bus.init : Bus :=
  { cartridge := .noMbc (fun _ => 0), ram := fun _ => 0, hram := fun _ => 0
    ppu := Ppu.init, apu := Apu.init, interrupt := Interrupt.init
    pad := Pad.init, timer := Timer.init }

/-- Model of `impl Io for Bus`, read side.  Note that no arm dispatches to the
APU: reads in `0xFF10..=0xFF3F` fall through to the default `0`.  The
three cartridge arms propagate the cartridge's `panic!` as `none`. -/
def Bus.read8 (s : Bus) (addr : Nat) : Option Nat :=
  if addr ≤ 0x3FFF then s.cartridge.read8 addr
  else if addr ≤ 0x7FFF then s.cartridge.read8 addr
  else if addr ≤ 0x9FFF then some (s.ppu.read8 addr)
  else if addr ≤ 0xBFFF then s.cartridge.read8 addr
  else if addr ≤ 0xDFFF then some (s.ram (addr &&& 0x1FFF))
  else if addr ≤ 0xFDFF then some (s.ram (addr &&& 0x1FFF))
  else if addr ≤ 0xFE9F then some (s.ppu.read8 addr)
  else if addr ≤ 0xFEFF then some 0
  else if addr = 0xFF00 then some s.pad.read8
  else if 0xFF04 ≤ addr ∧ addr ≤ 0xFF07 then some (s.timer.read8 addr)
  else if addr = 0xFF0F then some (s.interrupt.read8 addr)
  else if 0xFF40 ≤ addr ∧ addr ≤ 0xFF4B then some (s.ppu.read8 addr)
  else if 0xFF4C ≤ addr ∧ addr ≤ 0xFF7F then some 0
  else if 0xFF80 ≤ addr ∧ addr ≤ 0xFFFE then some (s.hram (addr &&& 0x7F))
  else if addr = 0xFFFF then some (s.interrupt.read8 addr)
  else some 0

/-- Model of `impl Io for Bus`, write side (source arm order, including the five
APU ranges); the cartridge arms propagate the cartridge's `panic!` as
`none`. -/
def Bus.write8 (s : Bus) (addr data : Nat) : Option Bus :=
  if addr ≤ 0x3FFF then (s.cartridge.write8 addr data).map (fun c => { s with cartridge := c })
  else if addr ≤ 0x7FFF then (s.cartridge.write8 addr data).map (fun c => { s with cartridge := c })
  else if addr ≤ 0x9FFF then some { s with ppu := s.ppu.write8 addr data }
  else if addr ≤ 0xBFFF then (s.cartridge.write8 addr data).map (fun c => { s with cartridge := c })
  else if addr ≤ 0xDFFF then some { s with ram := upd s.ram (addr &&& 0x1FFF) data }
  else if addr ≤ 0xFDFF then some { s with ram := upd s.ram (addr &&& 0x1FFF) data }
  else if addr ≤ 0xFE9F then some { s with ppu := s.ppu.write8 addr data }
  else if addr ≤ 0xFEFF then some s
  else if addr = 0xFF00 then some { s with pad := s.pad.write8 data }
  else if 0xFF04 ≤ addr ∧ addr ≤ 0xFF07 then some { s with timer := s.timer.write8 addr data }
  else if (0xFF10 ≤ addr ∧ addr ≤ 0xFF14) ∨ (0xFF16 ≤ addr ∧ addr ≤ 0xFF19) ∨
          (0xFF1A ≤ addr ∧ addr ≤ 0xFF1E) ∨ (0xFF20 ≤ addr ∧ addr ≤ 0xFF26) ∨
          (0xFF30 ≤ addr ∧ addr ≤ 0xFF3F) then some { s with apu := s.apu.write8 addr data }
  else if addr = 0xFF0F then some { s with interrupt := s.interrupt.write8 addr data }
  else if 0xFF40 ≤ addr ∧ addr ≤ 0xFF4B then some { s with ppu := s.ppu.write8 addr data }
  else if 0xFF4C ≤ addr ∧ addr ≤ 0xFF7F then some s
  else if 0xFF80 ≤ addr ∧ addr ≤ 0xFFFE then some { s with hram := upd s.hram (addr &&& 0x7F) data }
  else if addr = 0xFFFF then some { s with interrupt := s.interrupt.write8 addr data }
  else some s

/-- The observable write-then-read composite the round-trip claims
speak about: perform the bus write, then read the same address on the
resulting bus, propagating a `panic!` of either step as `none`. -/
def Bus.writeThenRead (s : Bus) (addr data : Nat) : Option Nat :=
  (s.write8 addr data).bind (fun t => t.read8 addr)

def Bus.enable_irq (s : Bus) : Bus := { s with interrupt := s.interrupt.enable }

def Bus.disable_irq (s : Bus) : Bus := { s with interrupt := s.interrupt.disable }

def Bus.is_enabled_irq (s : Bus) : Bool := s.interrupt.is_enabled_irq

def Bus.isr_addr (s : Bus) : Option Nat := s.interrupt.isr_addr

def Bus.has_irq (s : Bus) : Bool := s.interrupt.has_irq

/-- One iteration of the `Bus::transfer` copy loop: re-read the DMA
register through the bus, read source byte `i`, write it to
`0xFE00 + i`; a panicking source read aborts (`none`). -/
def Bus.transferStep (s : Bus) (i : Nat) : Option Bus :=
  (s.read8 0xFF46).bind (fun d =>
    (s.read8 (d * 0x100 + i)).bind (fun data =>
      s.write8 (0xFE00 + i) data))

/-- The first `n` iterations (`i = 0 .. n-1`) of the copy loop. -/
def Bus.transferLoop : Nat → Bus → Option Bus
  | 0, s => some s
  | n + 1, s => (Bus.transferLoop n s).bind (fun t => Bus.transferStep t n)

/-- Model of `Bus::transfer`: when OAM DMA is pending, copy the 160 bytes and
clear the pending latch; returns whether a transfer happened, or
`none` when the copy loop hits a cartridge `panic!`. -/
def Bus.transfer (s : Bus) : Option (Bus × Bool) :=
  if s.ppu.dma_started then
    (Bus.transferLoop 0xA0 s).map (fun t => ({ t with ppu := t.ppu.stop_dma }, true))
  else some (s, false)

/-- Model of `Bus::tick`: advance the pipeline, convert its IRQ requests into
`IF` bits, then advance the timer and convert its overflow. -/
def Bus.tick (s : Bus) : Bus :=
  let (ppu, irqs) := s.ppu.tick
  let s := { s with ppu := ppu }
  let s :=
    match irqs with
    | (none, some _) => { s with interrupt := s.interrupt.set_irq .lcdcStatus }
    | (some _, none) => { s with interrupt := s.interrupt.set_irq .vblank }
    | (some _, some _) =>
      { s with interrupt := (s.interrupt.set_irq .vblank).set_irq .lcdcStatus }
    | _ => s
  let (timer, overflow) := s.timer.tick
  let s := { s with timer := timer }
  if overflow then { s with interrupt := s.interrupt.set_irq .timer } else s

/-! ## CPU (`src/core/cpu.rs`)

`Flags` defines all 8 bits, so `from_bits_truncate` on `F` keeps the
whole byte; `f` is the raw flag byte (Z = bit 7, N = bit 6, H = bit 5,
C = bit 4).  Register pairs compose as `high <<< 8 ||| low` (the
source's `(hi as i16) << 8) as u16 | lo` for byte-sized contents). -/

structure Cpu where
  a  : Nat
  b  : Nat
  d  : Nat
  h  : Nat
  c  : Nat
  e  : Nat
  l  : Nat
  f  : Nat
  sp : Nat
  pc : Nat
  bus : Bus

/-- Model of `Cpu::new`. -/
def Cpu.init : Cpu :=
  { a := 0, b := 0, d := 0, h := 0, c := 0, e := 0, l := 0, f := 0
    sp := 0xFFFE, pc := 0x100, bus := Bus.init }

/-- Model of `cpu.f.insert(mask)`. -/
def Cpu.fInsert (cpu : Cpu) (mask : Nat) : Cpu := { cpu with f := cpu.f ||| mask }

/-- Model of `cpu.f.remove(mask)`. -/
def Cpu.fRemove (cpu : Cpu) (mask : Nat) : Cpu := { cpu with f := cpu.f &&& (0xFF ^^^ mask) }

/-- Model of `Cpu::fetch`: read the byte at `PC` and post-increment `PC`
(propagating a panicking bus read as `none`). -/
def Cpu.fetch (cpu : Cpu) : Option (Nat × Cpu) :=
  (cpu.bus.read8 cpu.pc).map (fun v => (v, { cpu with pc := (cpu.pc + 1) % 65536 }))

def Cpu.read_bc (cpu : Cpu) : Nat := (cpu.b <<< 8) ||| cpu.c

def Cpu.read_hl (cpu : Cpu) : Nat := (cpu.h <<< 8) ||| cpu.l

/-- Model of `Cpu::write_hl` (`as u8` truncations on both halves). -/
def Cpu.write_hl (cpu : Cpu) (data : Nat) : Cpu :=
  { cpu with h := (data >>> 8) &&& 0xFF, l := data &&& 0xFF }

/-- Model of `Cpu::push`: pre-decrement `SP`, then write. -/
def Cpu.push (cpu : Cpu) (data : Nat) : Option Cpu :=
  let sp := (cpu.sp + 65536 - 1) % 65536
  (cpu.bus.write8 sp data).map (fun bus => { cpu with sp := sp, bus := bus })

/-- Opcode `0x00`, `NOP`. -/
def opNop (cpu : Cpu) : Cpu := cpu

/-- Opcode `0x09`, `ADD HL, BC`: wrapping 16-bit sum; `N` cleared, `H`
from bit 8 of `result ^ hl ^ bc` (the source's `& 0x0100` test), `C`
from `result < hl`, `Z` untouched. -/
def opAddHlBc (cpu : Cpu) : Cpu :=
  let hl := cpu.read_hl
  let bc := cpu.read_bc
  let cpu := cpu.write_hl ((hl + bc) % 65536)
  let cpu := cpu.fRemove 0x40
  let cpu := if (cpu.read_hl ^^^ hl ^^^ bc) &&& 0x0100 = 0x0100 then cpu.fInsert 0x20
             else cpu.fRemove 0x20
  if cpu.read_hl < hl then cpu.fInsert 0x10 else cpu.fRemove 0x10

/-- Opcode `0xAF`, `XOR A, A`: `Z` from the result, `N` removed, `H`
**inserted** and `C` removed (the source's flag block). -/
def opXorAA (cpu : Cpu) : Cpu :=
  let a := cpu.a
  let n := cpu.a
  let cpu := { cpu with a := a ^^^ n }
  let cpu := if cpu.a = 0 then cpu.fInsert 0x80 else cpu.fRemove 0x80
  let cpu := cpu.fRemove 0x40
  let cpu := cpu.fInsert 0x20
  cpu.fRemove 0x10

/-- Opcode `0xB0`, `OR A, B`: `Z` from the result, `N` removed, `H`
**inserted** and `C` removed (the source's flag block). -/
def opOrAB (cpu : Cpu) : Cpu :=
  let a := cpu.a
  let n := cpu.b
  let cpu := { cpu with a := a ||| n }
  let cpu := if cpu.a = 0 then cpu.fInsert 0x80 else cpu.fRemove 0x80
  let cpu := cpu.fRemove 0x40
  let cpu := cpu.fInsert 0x20
  cpu.fRemove 0x10

/-- Opcode `0xF8`, `LDHL SP, n`: `HL := (SP as i16).wrapping_add(n as
i8 as i16) as u16`; `Z`/`N` cleared, `H` set iff `n ≥ 0`, `C` set iff
`SP > HL` (the source's flag computations). -/
def opLdhlSpN (cpu0 : Cpu) : Option Cpu :=
  (cpu0.fetch).map (fun fetched =>
    let n : Int := toI8 fetched.1
    let cpu := fetched.2
    let value : Nat := ((toI16 cpu.sp + n).emod 65536).toNat
    let cpu := cpu.write_hl value
    let cpu := cpu.fRemove 0x80
    let cpu := cpu.fRemove 0x40
    let cpu := if 0 ≤ n then cpu.fInsert 0x20 else cpu.fRemove 0x20
    if value < cpu.sp then cpu.fInsert 0x10 else cpu.fRemove 0x10)

/-- Model of `Cpu::decode`, restricted to the opcodes this development reasons
about; every other opcode (including the `unimplemented!` arm of the
source) is `none`. -/
def Cpu.decode : Nat → Option (Cpu → Option Cpu)
  | 0x00 => some (fun cpu => some (opNop cpu))
  | 0x09 => some (fun cpu => some (opAddHlBc cpu))
  | 0xAF => some (fun cpu => some (opXorAA cpu))
  | 0xB0 => some (fun cpu => some (opOrAB cpu))
  | 0xF8 => some opLdhlSpN
  | _ => none

/-- Model of `Cpu::tick`: service DMA through `Bus::transfer`; when no transfer
was pending, fetch / decode / execute one instruction; finally
`Bus::tick`.  There is no interrupt-dispatch step: `Bus::isr_addr` is
never consulted.  `none` models a panic (a cartridge read / write
panic, or the `unimplemented!` decode arm). -/
def Cpu.tick (cpu0 : Cpu) : Option Cpu :=
  (cpu0.bus.transfer).bind (fun bt =>
    let cpu := { cpu0 with bus := bt.1 }
    let stepped : Option Cpu :=
      if bt.2 then some cpu
      else
        (cpu.fetch).bind (fun oc =>
          (Cpu.decode oc.1).bind (fun op => op oc.2))
    stepped.map (fun c => { c with bus := c.bus.tick }))

/-- Replace the flattened OAM byte store of a bus (every other
component unchanged). -/
def Bus.withOam (s : Bus) (f : Nat → Nat) : Bus :=
  { s with ppu := { s.ppu with oam := f } }

/-- The OAM contents after `k` iterations of the DMA copy loop: bytes
below `k` hold the (succeeding) bus reads of the source page, the rest
is the original OAM. -/
def dmaPatch (s : Bus) (k : Nat) : Nat → Nat :=
  fun j => if j < k then (s.read8 (s.ppu.dma * 0x100 + j)).getD 0 else s.ppu.oam j

/-! ## Concrete machine states used as evidence inputs -/

/-- A CPU at reset (`PC = 0x100`, all-zero ROM, so the next opcode is
`NOP`) whose interrupt controller has IME on and the VBlank bit set in
both IE and IF. -/
def cpuC1 : Cpu :=
  { Cpu.init with
    bus := { Bus.init with interrupt := { ime := true, irqf := 0x01, irqe := 0x01 } } }

/-- A CPU with `A = 0x05` and all flags clear. -/
def cpuC2 : Cpu := { Cpu.init with a := 0x05 }

/-- Timer with TAC = `0b101` (enabled, selector `0b01`) one sub-clock
before the count reaches 16. -/
def timerC3a : Timer := { div := 0, tima := 0, tma := 0, tac := 0x05, count := 15 }

/-- Timer with TAC = `0b110` (enabled, selector `0b10`) one sub-clock
before the count reaches 16. -/
def timerC3b : Timer := { div := 0, tima := 0, tma := 0, tac := 0x06, count := 15 }

/-- A CPU with `HL = 0x0080`, `BC = 0x0080`, flags clear. -/
def cpuC5a : Cpu := { Cpu.init with l := 0x80, c := 0x80 }

/-- A CPU with `HL = 0x0800`, `BC = 0x0800`, flags clear. -/
def cpuC5b : Cpu := { Cpu.init with h := 0x08, b := 0x08 }

/-- A CPU with `SP = 0x0001` about to execute `LDHL SP, n` with
immediate `n = 0xFF` (−1). -/
def cpuC7a : Cpu :=
  { Cpu.init with
    sp := 0x0001
    pc := 0
    bus := { Bus.init with cartridge := .noMbc (fun a => if a = 0 then 0xFF else 0) } }

/-- A CPU with `SP = 0x00FF` about to execute `LDHL SP, n` with
immediate `n = 0x01`. -/
def cpuC7b : Cpu :=
  { Cpu.init with
    sp := 0x00FF
    pc := 0
    bus := { Bus.init with cartridge := .noMbc (fun a => if a = 0 then 0x01 else 0) } }

/-- A pipeline with the window enabled (`LCDC = 0xB1`) and `WX = 200`
(≥ 167) on line 0. -/
def ppuC6 : Ppu := { Ppu.init with lcdc := 0xB1, wx := 200 }

/-- A reset bus with a non-trivial ROM and a pending OAM DMA from
page 0. -/
def busC4 : Bus :=
  { Bus.init with
    cartridge := .noMbc (fun a => (a * 3) % 256)
    ppu := { Ppu.init with oam_dma_started := true } }

/-- A reset (ROM-only) bus with a pending OAM DMA latched to page
`0xA0`: the first source read of the copy loop lands at `0xA000`,
which the bus routes to the cartridge, whose `NoMbc` arm panics
there. -/
def busC4panic : Bus :=
  { Bus.init with ppu := { Ppu.init with dma := 0xA0, oam_dma_started := true } }

/-! ## Helper lemmas -/

set_option maxRecDepth 8000 in
/-- Reassembling the four 2-bit sub-colors of a palette byte is the
identity on bytes. -/
theorem palette_toU8_fromU8 : ∀ b < 256, (Palette.fromU8 b).toU8 = b := by decide

set_option maxRecDepth 8000 in
/-- Masking a byte with `0xFF` is the identity. -/
theorem land_mask_byte : ∀ b < 256, b &&& 0xFF = b := by decide

set_option maxRecDepth 8000 in
/-- Bit 7 of a `0x7F`-masked byte is clear. -/
theorem stat_mask_bit7 : ∀ b < 256, Nat.testBit (b &&& 0x7F) 7 = false := by decide

/-! ## The claims -/

/-- C1: the claim says a step with DMA idle, IME set and a common
IE∧IF bit dispatches the pending IRQ (clear its IF bit, clear IME,
push PC, jump to the vector) instead of executing the instruction at
PC.  The code does not: `Cpu::tick` never consults `isr_addr`.  On
`cpuC1` the controller itself selects vector `0x0040`, yet the step
fetches and executes the `NOP` at `0x100` (PC becomes `0x101`) and
leaves IF, IME and SP untouched. -/
theorem C1_step_skips_interrupt_dispatch :
    cpuC1.bus.isr_addr = some 0x0040 ∧
    (Cpu.tick cpuC1).map Cpu.pc = some 0x101 ∧
    (Cpu.tick cpuC1).map (fun cp => cp.bus.interrupt.irqf) = some 0x01 ∧
    (Cpu.tick cpuC1).map (fun cp => cp.bus.interrupt.ime) = some true ∧
    (Cpu.tick cpuC1).map Cpu.sp = some 0xFFFE :=
  ⟨rfl, rfl, rfl, rfl, rfl⟩

/-- C2: the claim says OR and XOR leave `H = 0` and `C = 0`, and that
`XOR A, A` yields `A = 0, Z = 1, N = 0, H = 0, C = 0`.  In the code
both `XOR A, A` (0xAF) and `OR A, B` (0xB0) run `f.insert(Flags::H)`,
so `H` comes out `1`; the remaining parts (`A`, `Z`, `N`, `C`) match
the claim. -/
theorem C2_xor_or_set_halfcarry :
    (opXorAA cpuC2).a = 0 ∧
    Nat.testBit (opXorAA cpuC2).f 7 = true ∧
    Nat.testBit (opXorAA cpuC2).f 6 = false ∧
    Nat.testBit (opXorAA cpuC2).f 5 = true ∧
    Nat.testBit (opXorAA cpuC2).f 4 = false ∧
    Nat.testBit (opOrAB cpuC2).f 5 = true := by
  decide

/-- C3: the claim (and the spec) assigns divider 16 to TAC selector
`0b01` and divider 64 to selector `0b10`; the code pairs pattern
`0b10` with `TAC01_DIV = 16` and pattern `0b01` with `TAC10_DIV = 64`.
At sub-clock 16 a timer with selector `0b01` does **not** increment
TIMA (the claim says it must), while one with selector `0b10` does
(the claim says it must not). -/
theorem C3_timer_selector_swapped :
    (Timer.tick timerC3a).1.tima = 0 ∧ (Timer.tick timerC3a).2 = false ∧
    (Timer.tick timerC3b).1.tima = 1 := by
  decide

/-- C5: the claim says `ADD HL, BC` computes `H` from the carry out of
bit 11; the code tests bit 8 of `result ^ hl ^ bc` (`& 0x0100`).  With
`HL = BC = 0x0080` there is no bit-11 carry yet the code sets `H`;
with `HL = BC = 0x0800` there is a bit-11 carry yet the code clears
`H`. The sum, `N` and `C` behave as the claim says. -/
theorem C5_addhl_halfcarry_uses_bit8 :
    (opAddHlBc cpuC5a).read_hl = 0x0100 ∧
    Nat.testBit (opAddHlBc cpuC5a).f 5 = true ∧
    Nat.testBit (opAddHlBc cpuC5a).f 6 = false ∧
    Nat.testBit (opAddHlBc cpuC5a).f 4 = false ∧
    (opAddHlBc cpuC5b).read_hl = 0x1000 ∧
    Nat.testBit (opAddHlBc cpuC5b).f 5 = false := by
  decide

/-- C7: the claim computes `H` from the low-nibble carry and `C` from
the low-byte carry of the unsigned additions into SP; the code sets
`H` iff the offset is non-negative and `C` iff `SP > HL`.  With
`SP = 0x0001`, `n = 0xFF` the nibble sum `0x1 + 0xF` carries, so the
claim wants `H = 1`, but the code clears it (`n < 0`).  With
`SP = 0x00FF`, `n = 0x01` the byte sum `0xFF + 0x01` carries, so the
claim wants `C = 1`, but the code clears it (`SP < HL`).  The sum and
`Z = N = 0` behave as the claim says. -/
theorem C7_ldhl_flag_rules_diverge :
    (opLdhlSpN cpuC7a).map Cpu.read_hl = some 0x0000 ∧
    (opLdhlSpN cpuC7a).map (fun c => Nat.testBit c.f 5) = some false ∧
    (opLdhlSpN cpuC7a).map (fun c => Nat.testBit c.f 7) = some false ∧
    (opLdhlSpN cpuC7a).map (fun c => Nat.testBit c.f 6) = some false ∧
    (opLdhlSpN cpuC7b).map Cpu.read_hl = some 0x0100 ∧
    (opLdhlSpN cpuC7b).map (fun c => Nat.testBit c.f 4) = some false := by
  decide

/-- C8 counterexample: writing `0xFF` to IF (`0xFF0F`) reads back
`0xFF` — bits 5–7 are preserved as written, not as 0 (the claim says a
read returns them as 0). -/
theorem C8_counterexample_if_high_bits :
    Bus.init.writeThenRead 0xFF0F 0xFF = some 0xFF ∧
    (Bus.init.writeThenRead 0xFF0F 0xFF).map (fun v => Nat.testBit v 5) = some true ∧
    (Bus.init.writeThenRead 0xFF0F 0xFF).map (fun v => Nat.testBit v 6) = some true ∧
    (Bus.init.writeThenRead 0xFF0F 0xFF).map (fun v => Nat.testBit v 7) = some true := by
  decide

/-- C8 (amended): writing a byte to STAT (`0xFF41`) reads back
`b &&& 0x7F` — bit 7 is 0 and the defined bits 0–6 round-trip — while
writing a byte to IF (`0xFF0F`) reads back the byte unchanged: the
`If` bitflags define all eight bits, so bits 5–7 round-trip instead of
reading as 0. -/
theorem C8_stat_bit7_zero_if_full_roundtrip (s : Bus) (b : Nat) (hb : b < 256) :
    s.writeThenRead 0xFF41 b = some (b &&& 0x7F) ∧
    (s.writeThenRead 0xFF41 b).map (fun v => Nat.testBit v 7) = some false ∧
    s.writeThenRead 0xFF0F b = some b := by
  refine ⟨rfl, ?_, ?_⟩
  · show some (Nat.testBit (b &&& 0x7F) 7) = some false
    rw [stat_mask_bit7 b hb]
  · show some (b &&& 0xFF) = some b
    rw [land_mask_byte b hb]

/-- C8 witness: the amended statement at `b = 0xAB` on the reset bus. -/
theorem C8_witness :
    (0xAB : Nat) < 256 ∧
    (Bus.init.writeThenRead 0xFF41 0xAB = some (0xAB &&& 0x7F) ∧
     (Bus.init.writeThenRead 0xFF41 0xAB).map (fun v => Nat.testBit v 7) = some false ∧
     Bus.init.writeThenRead 0xFF0F 0xAB = some 0xAB) :=
  ⟨by decide, C8_stat_bit7_zero_if_full_roundtrip Bus.init 0xAB (by decide)⟩

/-- C9: writing any byte to BGP (`0xFF47`), OBP0 (`0xFF48`) or OBP1
(`0xFF49`) and reading the register back yields exactly that byte: the
four 2-bit sub-colors recombine bit-exactly. -/
theorem C9_palette_roundtrip (s : Bus) (b : Nat) (hb : b < 256) :
    s.writeThenRead 0xFF47 b = some b ∧
    s.writeThenRead 0xFF48 b = some b ∧
    s.writeThenRead 0xFF49 b = some b := by
  refine ⟨?_, ?_, ?_⟩ <;> exact congrArg some (palette_toU8_fromU8 b hb)

/-- C9 witness: the round-trip at `b = 0xE4` on the reset bus. -/
theorem C9_witness :
    (0xE4 : Nat) < 256 ∧
    (Bus.init.writeThenRead 0xFF47 0xE4 = some 0xE4 ∧
     Bus.init.writeThenRead 0xFF48 0xE4 = some 0xE4 ∧
     Bus.init.writeThenRead 0xFF49 0xE4 = some 0xE4) :=
  ⟨by decide, C9_palette_roundtrip Bus.init 0xE4 (by decide)⟩

/-- C10: on a cartridge without MBC, a bus write to `0x0000..0x7FFF`
stores the byte into the ROM image at that address (it is not
discarded and not treated as an MBC control write), and a subsequent
read of the same address returns it. -/
theorem C10_nombc_rom_writethrough (s : Bus) (rom : Nat → Nat)
    (hc : s.cartridge = Cartridge.noMbc rom) (addr data : Nat) (ha : addr ≤ 0x7FFF) :
    s.write8 addr data = some { s with cartridge := Cartridge.noMbc (upd rom addr data) } ∧
    s.writeThenRead addr data = some data := by
  have hcw : Cartridge.write8 (Cartridge.noMbc rom) addr data
      = some (Cartridge.noMbc (upd rom addr data)) := by
    simp only [Cartridge.write8]
    rw [if_pos ha]
  have hw : s.write8 addr data
      = some { s with cartridge := Cartridge.noMbc (upd rom addr data) } := by
    unfold Bus.write8
    by_cases h1 : addr ≤ 0x3FFF
    · rw [if_pos h1, hc, hcw]
      rfl
    · rw [if_neg h1, if_pos ha, hc, hcw]
      rfl
  refine ⟨hw, ?_⟩
  unfold Bus.writeThenRead
  rw [hw]
  show Bus.read8 { s with cartridge := Cartridge.noMbc (upd rom addr data) } addr = some data
  unfold Bus.read8
  by_cases h1 : addr ≤ 0x3FFF
  · rw [if_pos h1]
    simp only [Cartridge.read8]
    rw [if_pos ha]
    simp [upd]
  · rw [if_neg h1, if_pos ha]
    simp only [Cartridge.read8]
    rw [if_pos ha]
    simp [upd]

/-- C10 witness: write `0xAB` to `0x1234` on the reset (no-MBC) bus. -/
theorem C10_witness :
    Bus.init.write8 0x1234 0xAB
      = some { Bus.init with cartridge := Cartridge.noMbc (upd (fun _ => 0) 0x1234 0xAB) } ∧
    Bus.init.writeThenRead 0x1234 0xAB = some 0xAB :=
  C10_nombc_rom_writethrough Bus.init (fun _ => 0) rfl 0x1234 0xAB (by decide)

/-! ## C6: the window skip conditions -/

/-- Folding a step function that fixes a state leaves it unchanged. -/
theorem foldl_fixed {α β : Type} (f : β → α → β) :
    ∀ (l : List α) (b : β), (∀ x ∈ l, f b x = b) → l.foldl f b = b
  | [], _, _ => rfl
  | x :: l, b, h => by
    rw [List.foldl_cons, h x (List.mem_cons_self x l)]
    exact foldl_fixed f l b (fun y hy => h y (List.mem_cons_of_mem x hy))

/-- The background render only writes `pixels`: `lcdc`, `wx`, `wy` and
`ly` survive the column fold. -/
theorem bgfold_preserves (l : List Nat) (p : Ppu) :
    (l.foldl Ppu.bgStep p).lcdc = p.lcdc ∧ (l.foldl Ppu.bgStep p).wx = p.wx ∧
    (l.foldl Ppu.bgStep p).wy = p.wy ∧ (l.foldl Ppu.bgStep p).ly = p.ly := by
  induction l generalizing p with
  | nil => exact ⟨rfl, rfl, rfl, rfl⟩
  | cons x l ih => exact ih (Ppu.bgStep p x)

/-- The function `build_window` is the identity whenever `wx ≥ 167`, `wy ≥ 144` or
`ly < wy` (on a byte-sized `wx` and a visible line): either an early
return fires, or `posx = wx - 7 ≥ 160` makes every column skip. -/
theorem build_window_skip (q : Ppu) (hwx : q.wx < 256) (hly : q.ly < 144)
    (h : 167 ≤ q.wx ∨ 144 ≤ q.wy ∨ q.ly < q.wy) :
    q.build_window = q := by
  unfold Ppu.build_window
  by_cases h1 : 167 ≤ q.wx ∧ 144 ≤ q.wy
  · rw [if_pos h1]
  · rw [if_neg h1]
    by_cases h2 : q.ly < q.wy
    · rw [if_pos h2]
    · rw [if_neg h2]
      have hwx167 : 167 ≤ q.wx := by
        rcases h with h | h | h
        · exact h
        · omega
        · omega
      have hpos : 160 ≤ wsub8 q.wx 7 := by
        unfold wsub8
        omega
      apply foldl_fixed
      intro x hx
      rw [List.mem_range] at hx
      show (if x < wsub8 q.wx 7 then q else _) = q
      rw [if_pos (by omega)]

/-- C6: on a visible line (`LY < 144`, byte-sized `WX`), the window
overlay contributes nothing to the pixel buffer whenever the window
enable bit is clear, or `WX ≥ 167`, or `WY ≥ 144`, or `LY < WY`: the
rendered line equals the background alone.  Equivalently, the window is
drawn only when WIN-enable is set, `WY ≤ LY` and `WX ≤ 166`. -/
theorem C6_window_skip (p : Ppu) (hwx : p.wx < 256) (hly : p.ly < 144)
    (h : p.window_on = false ∨ 167 ≤ p.wx ∨ 144 ≤ p.wy ∨ p.ly < p.wy) :
    (p.renderVisibleLine).pixels = (p.build_bg).pixels := by
  unfold Ppu.renderVisibleLine
  have hpres := bgfold_preserves (List.range 160) p
  have hlcdc : (p.build_bg).lcdc = p.lcdc := hpres.1
  have hwxq : (p.build_bg).wx = p.wx := hpres.2.1
  have hwyq : (p.build_bg).wy = p.wy := hpres.2.2.1
  have hlyq : (p.build_bg).ly = p.ly := hpres.2.2.2
  have hwon : (p.build_bg).window_on = p.window_on := by
    unfold Ppu.window_on
    rw [hlcdc]
  by_cases hwin : (p.build_bg).window_on = true
  · rw [if_pos hwin]
    have hskip : 167 ≤ (p.build_bg).wx ∨ 144 ≤ (p.build_bg).wy ∨
        (p.build_bg).ly < (p.build_bg).wy := by
      rcases h with h | h | h | h
      · rw [hwon, h] at hwin
        exact absurd hwin (by decide)
      · exact Or.inl (by omega)
      · exact Or.inr (Or.inl (by omega))
      · exact Or.inr (Or.inr (by omega))
    rw [build_window_skip (p.build_bg) (by omega) (by omega) hskip]
  · rw [if_neg hwin]

/-- C6 witness: the skip on `ppuC6` (window enabled, `WX = 200`,
line 0). -/
theorem C6_witness :
    ppuC6.wx < 256 ∧ ppuC6.ly < 144 ∧
    (ppuC6.window_on = false ∨ 167 ≤ ppuC6.wx ∨ 144 ≤ ppuC6.wy ∨ ppuC6.ly < ppuC6.wy) ∧
    (ppuC6.renderVisibleLine).pixels = (ppuC6.build_bg).pixels :=
  ⟨by decide, by decide, Or.inr (Or.inl (by decide)),
   C6_window_skip ppuC6 (by decide) (by decide) (Or.inr (Or.inl (by decide)))⟩

/-! ## C4: the OAM DMA transfer -/

theorem withOam_oam (s : Bus) : s.withOam s.ppu.oam = s := rfl

theorem dmaPatch_zero (s : Bus) : dmaPatch s 0 = s.ppu.oam := by
  funext j
  simp [dmaPatch]

set_option maxRecDepth 4000 in
/-- Flattened-OAM byte index of an absolute OAM address. -/
theorem oamIndex_base : ∀ i < 160, oamIndex (0xFE00 + i) = i := by decide

/-- The DMA register read in the copy loop is the `dma` latch,
whatever the OAM holds. -/
theorem read8_withOam_dma (s : Bus) (f : Nat → Nat) :
    (s.withOam f).read8 0xFF46 = some s.ppu.dma := rfl

/-- A bus read of OAM byte `i` returns the replaced store at `i`. -/
theorem read8_oam_byte (s : Bus) (f : Nat → Nat) (i : Nat) (hi : i < 160) :
    (s.withOam f).read8 (0xFE00 + i) = some (f i) := by
  have hidx : oamIndex (0xFE00 + i) = i := oamIndex_base i hi
  unfold Bus.withOam Bus.read8
  rw [if_neg (by omega), if_neg (by omega), if_neg (by omega), if_neg (by omega),
      if_neg (by omega), if_neg (by omega), if_pos (by omega)]
  unfold Ppu.read8
  rw [if_neg (by omega), if_pos (by omega), hidx]

/-- A bus read of OAM byte `i` on an unmodified bus. -/
theorem read8_oam_plain (s : Bus) (i : Nat) (hi : i < 160) :
    s.read8 (0xFE00 + i) = some (s.ppu.oam i) := by
  have h := read8_oam_byte s s.ppu.oam i hi
  rwa [withOam_oam] at h

/-- A `Ppu` read outside the OAM window ignores the OAM store. -/
theorem ppu_read8_oam_irrelevant (p : Ppu) (f : Nat → Nat) (a : Nat)
    (h : a < 0xFE00 ∨ 0xFE9F < a) :
    Ppu.read8 { p with oam := f } a = p.read8 a := by
  unfold Ppu.read8
  by_cases h1 : 0x8000 ≤ a ∧ a ≤ 0x9FFF
  · rw [if_pos h1, if_pos h1]
  rw [if_neg h1, if_neg h1]
  by_cases h2 : 0xFE00 ≤ a ∧ a ≤ 0xFE9F
  · exact absurd h2 (by omega)
  rw [if_neg h2, if_neg h2]

/-- A bus read outside the OAM window ignores the OAM store. -/
theorem read8_withOam_ne (s : Bus) (f : Nat → Nat) (a : Nat)
    (h : a < 0xFE00 ∨ 0xFE9F < a) :
    (s.withOam f).read8 a = s.read8 a := by
  have hp : ∀ b : Nat, (b < 0xFE00 ∨ 0xFE9F < b) →
      Ppu.read8 { s.ppu with oam := f } b = Ppu.read8 s.ppu b :=
    fun b hb => ppu_read8_oam_irrelevant s.ppu f b hb
  unfold Bus.withOam Bus.read8
  by_cases h1 : a ≤ 0x3FFF
  · rw [if_pos h1, if_pos h1]
  rw [if_neg h1, if_neg h1]
  by_cases h2 : a ≤ 0x7FFF
  · rw [if_pos h2, if_pos h2]
  rw [if_neg h2, if_neg h2]
  by_cases h3 : a ≤ 0x9FFF
  · rw [if_pos h3, if_pos h3, hp a (by omega)]
  rw [if_neg h3, if_neg h3]
  by_cases h4 : a ≤ 0xBFFF
  · rw [if_pos h4, if_pos h4]
  rw [if_neg h4, if_neg h4]
  by_cases h5 : a ≤ 0xDFFF
  · rw [if_pos h5, if_pos h5]
  rw [if_neg h5, if_neg h5]
  by_cases h6 : a ≤ 0xFDFF
  · rw [if_pos h6, if_pos h6]
  rw [if_neg h6, if_neg h6]
  by_cases h7 : a ≤ 0xFE9F
  · exact absurd h7 (by omega)
  rw [if_neg h7, if_neg h7]
  by_cases h8 : a ≤ 0xFEFF
  · rw [if_pos h8, if_pos h8]
  rw [if_neg h8, if_neg h8]
  by_cases h9 : a = 0xFF00
  · rw [if_pos h9, if_pos h9]
  rw [if_neg h9, if_neg h9]
  by_cases h10 : 0xFF04 ≤ a ∧ a ≤ 0xFF07
  · rw [if_pos h10, if_pos h10]
  rw [if_neg h10, if_neg h10]
  by_cases h11 : a = 0xFF0F
  · rw [if_pos h11, if_pos h11]
  rw [if_neg h11, if_neg h11]
  by_cases h12 : 0xFF40 ≤ a ∧ a ≤ 0xFF4B
  · rw [if_pos h12, if_pos h12, hp a (by omega)]
  rw [if_neg h12, if_neg h12]

/-- Reading source byte `i` of the DMA page is unaffected by the first
`k ≤ i` copied bytes — also when the source page is the OAM itself
(`dma = 0xFE`), where the already-copied bytes kept their values. -/
theorem read8_source_preserved (s : Bus) (k i : Nat) (hk : k ≤ i) (hi : i < 160) :
    (s.withOam (dmaPatch s k)).read8 (s.ppu.dma * 0x100 + i)
      = s.read8 (s.ppu.dma * 0x100 + i) := by
  by_cases hd : s.ppu.dma = 0xFE
  · have ha : s.ppu.dma * 0x100 + i = 0xFE00 + i := by rw [hd]
    rw [ha, read8_oam_byte s (dmaPatch s k) i hi, read8_oam_plain s i hi]
    simp only [dmaPatch]
    rw [if_neg (by omega)]
  · exact read8_withOam_ne s (dmaPatch s k) _ (by omega)

/-- Writing OAM byte `i` updates exactly that byte of the store (and
never panics). -/
theorem write8_withOam_oam_byte (s : Bus) (f : Nat → Nat) (i v : Nat) (hi : i < 160) :
    (s.withOam f).write8 (0xFE00 + i) v = some (s.withOam (upd f i v)) := by
  have hidx : oamIndex (0xFE00 + i) = i := oamIndex_base i hi
  unfold Bus.withOam Bus.write8
  rw [if_neg (by omega), if_neg (by omega), if_neg (by omega), if_neg (by omega),
      if_neg (by omega), if_neg (by omega), if_pos (by omega)]
  unfold Ppu.write8
  rw [if_neg (by omega), if_pos (by omega), hidx]

/-- When every source read of the latched page succeeds, the first
`k ≤ 160` iterations of the copy loop succeed and produce exactly the
patched OAM. -/
theorem transferLoop_eq (s : Bus)
    (hok : ∀ i < 160, (s.read8 (s.ppu.dma * 0x100 + i)).isSome = true) :
    ∀ k, k ≤ 160 → Bus.transferLoop k s = some (s.withOam (dmaPatch s k)) := by
  intro k
  induction k with
  | zero =>
    intro _
    show some s = some (s.withOam (dmaPatch s 0))
    rw [dmaPatch_zero, withOam_oam]
  | succ k ih =>
    intro hk
    have hk160 : k < 160 := by omega
    show (Bus.transferLoop k s).bind (fun t => Bus.transferStep t k) = _
    rw [ih (by omega)]
    show Bus.transferStep (s.withOam (dmaPatch s k)) k = _
    unfold Bus.transferStep
    rw [read8_withOam_dma]
    show ((s.withOam (dmaPatch s k)).read8 (s.ppu.dma * 0x100 + k)).bind
        (fun data => (s.withOam (dmaPatch s k)).write8 (0xFE00 + k) data) = _
    rw [read8_source_preserved s k k (Nat.le_refl k) hk160]
    obtain ⟨v, hv⟩ := Option.isSome_iff_exists.mp (hok k hk160)
    rw [hv]
    show (s.withOam (dmaPatch s k)).write8 (0xFE00 + k) v = _
    rw [write8_withOam_oam_byte s (dmaPatch s k) k v hk160]
    have hfun : upd (dmaPatch s k) k v = dmaPatch s (k + 1) := by
      funext j
      simp only [upd, dmaPatch]
      by_cases hj : j = k
      · subst hj
        rw [if_pos rfl, if_pos (by omega), hv]
        rfl
      · rw [if_neg hj]
        by_cases hjk : j < k
        · rw [if_pos hjk, if_pos (by omega)]
        · rw [if_neg hjk, if_neg (by omega)]
    rw [hfun]

/-- C4 (amended): when the OAM-DMA latch is pending **and every one of
the 160 source reads succeeds** (no read lands on a cartridge `panic!`
arm), `Bus::transfer` reports a transfer, clears the latch, and leaves
each OAM byte `i < 160` equal to the pre-transfer bus read of address
`dma * 0x100 + i`. -/
theorem C4_dma_transfer (s : Bus) (hp : s.ppu.oam_dma_started = true)
    (hok : ∀ i < 160, (s.read8 (s.ppu.dma * 0x100 + i)).isSome = true) :
    ∃ t : Bus, s.transfer = some (t, true) ∧ t.ppu.oam_dma_started = false ∧
      ∀ i < 160, t.read8 (0xFE00 + i) = s.read8 (s.ppu.dma * 0x100 + i) := by
  have hcond : s.ppu.dma_started = true := hp
  refine ⟨Bus.withOam { s with ppu := s.ppu.stop_dma } (dmaPatch s 0xA0), ?_, rfl, ?_⟩
  · unfold Bus.transfer
    rw [hcond, if_pos rfl, transferLoop_eq s hok 0xA0 (by omega)]
    rfl
  · intro i hi
    rw [read8_oam_byte _ _ i hi]
    simp only [dmaPatch]
    rw [if_pos hi]
    obtain ⟨v, hv⟩ := Option.isSome_iff_exists.mp (hok i hi)
    rw [hv]
    rfl

set_option maxRecDepth 8000 in
/-- C4 counterexample: the claim as stated quantifies over every page
byte, but servicing a pending DMA latched to page `0xA0` on a ROM-only
cartridge panics in `Cartridge::read8` at the first source read
(`0xA000`) — the copy does not complete and the latch is not
cleared. -/
theorem C4_counterexample_panicking_page :
    busC4panic.ppu.oam_dma_started = true ∧ busC4panic.ppu.dma = 0xA0 ∧
    Bus.transfer busC4panic = none :=
  ⟨rfl, rfl, rfl⟩

set_option maxRecDepth 4000 in
/-- C4 witness: the amended statement on `busC4` (pending DMA from
page 0 of a non-trivial ROM, where every source read succeeds). -/
theorem C4_witness :
    busC4.ppu.oam_dma_started = true ∧
    (∀ i < 160, (busC4.read8 (busC4.ppu.dma * 0x100 + i)).isSome = true) ∧
    (∃ t : Bus, busC4.transfer = some (t, true) ∧ t.ppu.oam_dma_started = false ∧
      ∀ i < 160, t.read8 (0xFE00 + i) = busC4.read8 (busC4.ppu.dma * 0x100 + i)) :=
  ⟨rfl, by decide, C4_dma_transfer busC4 rfl (by decide)⟩

end GBR
